import Mathlib

/-!
# Verification of the wetlands environment-management core

A shallow embedding, in Lean 4, of the parts of the `wetlands` repository
(Python) that the specification's claims are about:

* the worker runtime protocol (`module_executor`, `ExternalEnvironment`),
* dependency formatting and satisfaction checking
  (`DependencyManager.formatDependencies`, `EnvironmentManager._checkRequirement`,
  `EnvironmentManager._dependenciesAreInstalled`),
* environment lifecycle (`EnvironmentManager.create`,
  `ExternalEnvironment.delete` / `update`),
* the command executor (`CommandExecutor.getOutput`).

Python strings are modelled as Lean `String`/`List Char`; Python dicts keyed
by strings as association lists; the filesystem, installed-package queries and
subprocess outcomes as explicit state passed to the embedded functions.
Machine-level details (sockets, threads, real processes) appear only through
the values they deliver (received frames, output lines, exit codes).
-/

namespace Wetlands

set_option maxRecDepth 100000

/-! ## Basic string utilities (Python `str` operations used by the code) -/

/-- Python `s.startswith(p)` on explicit character lists. -/
def pyStarts : List Char → List Char → Bool
  | _, [] => true
  | [], _ :: _ => false
  | c :: cs, d :: ds => c == d && pyStarts cs ds

/-- Python `needle in hay` (substring containment) on character lists. -/
def containsSub (needle : List Char) : List Char → Bool
  | [] => needle.isEmpty
  | c :: cs => pyStarts (c :: cs) needle || containsSub needle cs

/-- Whitespace as stripped by Python `str.strip()` (no argument). -/
def isPySpace (c : Char) : Bool := c.isWhitespace

/-- Python `str.strip()` on character lists. -/
def stripChars (l : List Char) : List Char :=
  ((l.dropWhile isPySpace).reverse.dropWhile isPySpace).reverse

/-- Python `s.strip()`. -/
def pyStrip (s : String) : String := ⟨stripChars s.data⟩

/-- Python `s.split(sep)` for a two-character separator `a,b`
(left-to-right, non-overlapping); accumulator-based. -/
def splitOnPair (a b : Char) : List Char → List Char → List (List Char)
  | [], acc => [acc.reverse]
  | [c], acc => [(c :: acc).reverse]
  | c :: d :: cs, acc =>
    if c == a && d == b then acc.reverse :: splitOnPair a b cs []
    else splitOnPair a b (d :: cs) (c :: acc)

/-- Python `s.split(sep)` for a two-character separator. -/
def pySplit2 (a b : Char) (s : List Char) : List (List Char) := splitOnPair a b s []

/-- Python `s.replace("=", "")`: remove every `'='`. -/
def removeEqChars (s : String) : String := ⟨s.data.filter (fun c => !(c == '='))⟩

/-- Python `s.startswith(p)` on `String`. -/
def pyStartsS (s p : String) : Bool := pyStarts s.data p.data

/-- Association-list lookup (Python `dict[key]` / `dict.get(key)`). -/
def lookupA {α : Type} : List (String × α) → String → Option α
  | [], _ => none
  | (k, v) :: rest, key => if k == key then some v else lookupA rest key

/-! ## Runtime values

Python objects crossing the IPC channel, restricted to the shapes the claims
exercise (ints, strings, lists, `None`). -/

inductive Val where
  | vnone
  | vint (n : Int)
  | vstr (s : String)
  | vlist (l : List Val)

/-! ## C1: the worker runtime's `execute` handling

The worker started by `ExternalEnvironment.launch` is
`wetlands/_internal/module_executor.py`, which is not under `src/` (only the
legacy `cema/module_executor.py` is, and the `launch`/`execute` callers in
`wetlands/external_environment.py`).  The worker-side `execute` handling is
therefore modelled from the spec below. -/

/-- A Python exception as the worker reports it: `str(e)` and
`traceback.format_tb(e.__traceback__)`. -/
structure PyExc where
  message : String
  tracebackLines : List String

/-- A Python function as the worker sees it: the name of the module where it
is defined (its `__module__`) and its behaviour on positional plus keyword
arguments (raising is returning `.error`). -/
structure PyFunction where
  definedIn : String
  call : List Val → List (String × Val) → Except PyExc Val

/-- An imported Python module: its module name and its function attributes. -/
structure PyModule where
  modName : String
  functions : List (String × PyFunction)

/-- Reply frames the worker sends back for one request. -/
inductive WFrame where
  | executionFinished (result : Val) (message : String)
  | errorFrame (exception : String) (traceback : List String)

/-- An `execute` request frame as sent by `ExternalEnvironment.execute`
(`{action: "execute", modulePath, function, args, kwargs}`). -/
structure ExecuteMsg where
  modulePath : String
  function : String
  args : List Val
  kwargs : List (String × Val)

/-- Modelled from the spec: the `execute` handler of the worker runtime
(`wetlands/_internal/module_executor.py`, absent from `src/`).  Spec §4.7 says:
it imports the module at `modulePath` (importability is the `world` map), verifies
the named function exists and is defined in that module (not merely
re-exported), call it with `args…, **kwargs`, and send back exactly one
`execution finished` frame with the result; on any exception send one `error`
frame with the exception string and traceback lines.  The "has no function"
message follows the repository's own tests (`test_wetlands.py`). -/
def functionExecutor (world : String → Except PyExc PyModule) (msg : ExecuteMsg) :
    List WFrame :=
  match world msg.modulePath with
  | .error e => [WFrame.errorFrame e.message e.tracebackLines]
  | .ok m =>
    match lookupA m.functions msg.function with
    | none =>
      [WFrame.errorFrame
        ("Module " ++ msg.modulePath ++ " has no function " ++ msg.function ++ ".") []]
    | some f =>
      if f.definedIn == m.modName then
        match f.call msg.args msg.kwargs with
        | .ok r => [WFrame.executionFinished r ("process execution done")]
        | .error e => [WFrame.errorFrame e.message e.tracebackLines]
      else
        [WFrame.errorFrame
          ("Module " ++ msg.modulePath ++ " has no function " ++ msg.function ++ ".") []]

/-- `int(np.prod(x))` for a list of Python ints (product; 1.0 on the empty list). -/
def npProdInt : List Val → Int
  | [] => 1
  | Val.vint n :: rest => n * npProdInt rest
  | _ :: rest => npProdInt rest

/-- The module function `def prod(x=[], y=1): return int(np.prod(x))*y`:
`x` is bound from the first positional argument (default `[]`), `y` from the
keyword `y`, else the second positional argument, else the default `1`. -/
def prodFunction : PyFunction where
  definedIn := "m"
  call := fun args kwargs =>
    let x : List Val :=
      match args with
      | Val.vlist l :: _ => l
      | _ => []
    let y : Int :=
      match lookupA kwargs "y", args.drop 1 with
      | some (Val.vint n), _ => n
      | none, Val.vint n :: _ => n
      | _, _ => 1
    .ok (Val.vint (npProdInt x * y))

/-- The module file `m.py` defining `prod`. -/
def prodModule : PyModule := ⟨"m", [("prod", prodFunction)]⟩

/-- An import world in which only `m.py` exists. -/
def prodWorld : String → Except PyExc PyModule := fun p =>
  if p == "m.py" then .ok prodModule
  else .error ⟨"No module named " ++ p, []⟩

/-- The spec's keyword-argument scenario request:
`env.execute("m.py", "prod", ([1,2,3],), {"y": 2})`. -/
def prodMsg : ExecuteMsg :=
  ⟨"m.py", "prod", [Val.vlist [Val.vint 1, Val.vint 2, Val.vint 3]], [("y", Val.vint 2)]⟩


/-! ## C2: `ExternalEnvironment._sendAndWait` -/

/-- A host-side frame received from the worker, modelling the unordered field
dictionary: `message.get("action")`, `message.get("result")`,
`message["exception"]`, `message["traceback"]`. -/
structure HFrame where
  action : Option String
  result : Option Val
  exception : String
  traceback : List String

/-- One event observed by the `connection.send` / `connection.recv` exchange
in `_sendAndWait`: a received (truthy) message, a falsy message (which ends
the `while message := connection.recv()` loop), or one of the caught
communication exceptions. -/
inductive RecvEvent where
  | msg (f : HFrame)
  | falsy
  | eofError
  | brokenPipe
  | osError (errno : Int)

/-- Outcome of `_sendAndWait`: a normal return (`none` models returning
Python `None`), a raised `ExecutionException`, a re-raised `OSError`, the
"Connection not ready." exception, or blocking forever on `recv` (the event
list was exhausted). -/
inductive SWResult where
  | returned (v : Option Val)
  | raisedExecution (exception : String) (traceback : List String)
  | raisedOS (errno : Int)
  | raisedNotReady
  | blocked

/-- The receive loop of `_sendAndWait` (`wetlands/external_environment.py`):
on `execution finished` return `message.get("result")`; on `error` raise
`ExecutionException` (carrying the frame's exception string and traceback
lines); on any other action log and continue; `EOFError`, `BrokenPipeError`
and `OSError` with errno 9 are logged and yield a `None` return; any other
`OSError` is re-raised; a falsy message exits the loop and returns `None`. -/
def sendAndWaitLoop : List RecvEvent → SWResult
  | [] => .blocked
  | RecvEvent.falsy :: _ => .returned none
  | RecvEvent.eofError :: _ => .returned none
  | RecvEvent.brokenPipe :: _ => .returned none
  | RecvEvent.osError e :: _ => if e == 9 then .returned none else .raisedOS e
  | RecvEvent.msg f :: rest =>
    if f.action == some ("execution finished") then .returned f.result
    else if f.action == some ("error") then .raisedExecution f.exception f.traceback
    else sendAndWaitLoop rest

/-- `_sendAndWait`: the guard `connection is None or connection.closed`
raises `ExecutionException("Connection not ready.")`; otherwise the payload
is sent and the receive loop runs over the observed events. -/
def sendAndWait (connOpen : Bool) (events : List RecvEvent) : SWResult :=
  if connOpen then sendAndWaitLoop events else .raisedNotReady

/-- An event that the receive loop skips: a received frame whose action is
neither of the two terminal tags. -/
def nonTerminalFrame : RecvEvent → Bool
  | RecvEvent.msg f =>
    !(f.action == some ("execution finished")) && !(f.action == some ("error"))
  | _ => false


/-! ## Dependency model

`Dependencies` (`cema/dependencies.py` / the `Dependencies` TypedDict): an
optional `python` constraint and ordered `conda` and `pip` entry lists, each
entry a plain requirement string or a structured requirement. -/

/-- An installed-package record `{name, version, kind}` with
`kind ∈ {"conda", "pypi"}`. -/
structure Pkg where
  name : String
  version : String
  kind : String
deriving DecidableEq

/-- The `platforms` field of a structured entry: either the literal string
`"all"` or a list of platform tags. -/
inductive PlatformSpec where
  | allPlatforms
  | tags (l : List String)
deriving DecidableEq

/-- A structured requirement `{name, platforms, optional, dependencies}`;
the `dependencies` key is optional (`NotRequired`), hence `Option Bool`. -/
structure StructuredDep where
  name : String
  platforms : PlatformSpec
  optional : Bool
  dependencies : Option Bool
deriving DecidableEq

/-- One entry of a dependency list. -/
inductive DepEntry where
  | str (s : String)
  | structured (d : StructuredDep)
deriving DecidableEq

/-- A dependency set. -/
structure Dependencies where
  python : Option String
  conda : List DepEntry
  pip : List DepEntry

/-- The empty dependency set (`{}`). -/
def emptyDeps : Dependencies := ⟨none, [], []⟩

/-- Exceptions raised by the embedded manager code. -/
inductive WetErr where
  | incompat (message : String)
  | pipChannel
  | pythonVersion (message : String)
  | commandFailed (message : String)
  | typeError (message : String)
  | notFound (message : String)
deriving DecidableEq

/-! ## C4: `DependencyManager.formatDependencies` (`cema/dependency_manager.py`) -/

/-- The platform-inclusion test of `formatDependencies`:
`currentPlatform in platforms or platforms == "all" or len(platforms) == 0 or
not raiseIncompatibilityError`.  (When `platforms` is the string `"all"`, the
first disjunct is a substring test, but the second disjunct is then true, so
the disjunction is true regardless.) -/
def depIncluded (cp : String) (raiseError : Bool) (d : StructuredDep) : Bool :=
  match d.platforms with
  | .allPlatforms => true
  | .tags ps => ps.contains cp || ps.isEmpty || !raiseError

/-- The incompatibility message of `formatDependencies`. -/
def incompatMessage (cp : String) (name : String) (ps : List String) : String :=
  "Error: the library " ++ name ++ " is not available on this platform (" ++ cp ++
    "). It is only available on the following platforms: " ++
    String.intercalate (", ") ps ++ "."

/-- The entry loop of `formatDependencies`: simple strings go to the first
(with-deps) list; a structured entry passing the platform test goes to the
first list unless its `dependencies` key is present and false (then the
second, no-deps list); a failing non-optional entry raises
`IncompatibilityException`; a failing optional entry is skipped. -/
def collectDeps (cp : String) (raiseError : Bool) :
    List DepEntry → Except WetErr (List String × List String)
  | [] => .ok ([], [])
  | DepEntry.str s :: rest => do
    let (a, b) ← collectDeps cp raiseError rest
    .ok (s :: a, b)
  | DepEntry.structured d :: rest =>
    if depIncluded cp raiseError d then
      match d.dependencies with
      | some false => do
        let (a, b) ← collectDeps cp raiseError rest
        .ok (a, d.name :: b)
      | _ => do
        let (a, b) ← collectDeps cp raiseError rest
        .ok (d.name :: a, b)
    else if !d.optional then
      .error (.incompat (incompatMessage cp d.name
        (match d.platforms with | .allPlatforms => [] | .tags ps => ps)))
    else collectDeps cp raiseError rest

/-- Quote one spec (`f'"{d}"'`). -/
def quoteSpec (d : String) : String := "\"" ++ d ++ "\""

/-- `DependencyManager.formatDependencies` (`cema/dependency_manager.py`):
returns the with-deps list, the no-deps list (both quoted) and whether any
entry was emitted.  The `quote` flag models the fourth parameter of the
`wetlands/_internal` variant of this function (absent from `src/`), which
`_dependenciesAreInstalled` passes as `False`; the cema source always
quotes, i.e. uses `quote = true`. -/
def formatDependencies (cp : String) (raiseError : Bool) (quote : Bool)
    (entries : List DepEntry) : Except WetErr (List String × List String × Bool) := do
  let (a, b) ← collectDeps cp raiseError entries
  let q := fun d => if quote then quoteSpec d else d
  .ok (a.map q, b.map q, decide (0 < a.length + b.length))

/-! ## C6: `EnvironmentManager._checkRequirement`
(`wetlands/environment_manager.py`) -/

/-- `EnvironmentManager._removeChannel`: `"channel::package" -> "package"`
(`split("::")[1]` when `"::"` occurs). -/
def removeChannel (s : String) : String :=
  match pySplit2 (':') (':') s.data with
  | _ :: second :: _ => ⟨second⟩
  | _ => s

/-- The package manager argument of `_checkRequirement`. -/
inductive PkgManager where
  | pip
  | conda

/-- `EnvironmentManager._checkRequirement`: strip the channel prefix for
conda specs, split on `"=="`, and accept iff some installed record has the
same name, the matching kind (`"conda"`/`"pypi"`), and a version that starts
with the text after `"=="` (no constraint text means any version). -/
def checkRequirement (dependency : String) (pm : PkgManager)
    (installed : List Pkg) : Bool :=
  let dep := match pm with
    | .conda => removeChannel dependency
    | .pip => dependency
  let nameVersion := pySplit2 ('=') ('=') dep.data
  let pmName := match pm with
    | .conda => "conda"
    | .pip => "pypi"
  installed.any (fun p =>
    (nameVersion.headD []) == p.name.data &&
    (nameVersion.length == 1 || pyStarts p.version.data (nameVersion.getD 1 [])) &&
    pmName == p.kind)

/-! ## C9: `EnvironmentManager._dependenciesAreInstalled`
(`wetlands/environment_manager.py`) -/

/-- The host-runtime facts `_dependenciesAreInstalled` consults: `sys.version`,
the conda platform tag (`DependencyManager._platformCondaFormat()`),
`mainEnvironment.path`, the host interpreter's distribution metadata
(`importlib.metadata.distributions()`), and the package list reported by
`getInstalledPackages(mainEnvironment)` when the main environment has a path
(that method only runs shell commands, so its result is state here). -/
structure HostState where
  sysVersion : String
  currentPlatform : String
  mainPath : Option (List String)
  hostDistributions : List Pkg
  envPackages : List Pkg

/-- `EnvironmentManager._dependenciesAreInstalled`: fail the `python` prefix
check against `sys.version` first; format both entry lists with
incompatibility checks disabled (the wetlands variant's fourth argument
disables quoting); succeed when nothing is requested; fail when conda entries
are requested but the main environment has no path; otherwise gather the
installed records and require every formatted spec to pass
`_checkRequirement`. -/
def dependenciesAreInstalled (st : HostState) (deps : Dependencies) :
    Except WetErr Bool := do
  if !(pyStartsS st.sysVersion (removeEqChars (deps.python.getD ""))) then
    return false
  let (condaD, condaND, hasConda) ←
    formatDependencies st.currentPlatform false false deps.conda
  let (pipD, pipND, hasPip) ←
    formatDependencies st.currentPlatform false false deps.pip
  if !hasPip && !hasConda then
    return true
  if hasConda && st.mainPath.isNone then
    return false
  let installed0 : List Pkg :=
    if hasPip && st.mainPath.isNone then st.hostDistributions else []
  let installed : List Pkg :=
    if st.mainPath.isSome then st.envPackages else installed0
  return ((condaD ++ condaND).all (fun d => checkRequirement d .conda installed) &&
    (pipD ++ pipND).all (fun d => checkRequirement d .pip installed))

/-! ## C5: the Python-version check in `EnvironmentManager.create` -/

/-- Numeric value of a digit run (`int("...")`). -/
def digitsVal (ds : List Char) : Nat :=
  ds.foldl (fun a c => a * 10 + (c.toNat - 48)) 0

/-- Try to match the regex `(\d+)\.(\d+)` at the start of the text: a maximal
digit run, a literal dot, a second digit run (maximal munch is exact here
because a digit can never match the dot). -/
def matchVersionAt (cs : List Char) : Option (Nat × Nat) :=
  let ds := cs.takeWhile Char.isDigit
  let rest := cs.dropWhile Char.isDigit
  if ds.isEmpty then none
  else
    match rest with
    | '.' :: r2 =>
      let ds2 := r2.takeWhile Char.isDigit
      if ds2.isEmpty then none else some (digitsVal ds, digitsVal ds2)
    | _ => none

/-- `re.search(r"(\d+)\.(\d+)", s)`: the translation of the first match,
scanning start positions left to right. -/
def searchVersion : List Char → Option (Nat × Nat)
  | [] => none
  | c :: rest =>
    match matchVersionAt (c :: rest) with
    | some m => some m
    | none => searchVersion rest

/-- The guard in `EnvironmentManager.create`
(`wetlands/environment_manager.py:369-372`): after stripping `=` characters,
raise when the regex matches with `int(group(1)) < 3 or int(group(2)) < 9`. -/
def pythonVersionCheckFails (pythonVersion : String) : Bool :=
  match searchVersion pythonVersion.data with
  | some (mj, mn) => mj < 3 || mn < 9
  | none => false

/-- The spec-side predicate for C5 (stated from the claim's words, for
comparison with the source-derived check): the requested `X.Y` is lower
than `3.9` in the usual version order. -/
def specVersionBelow39 (pythonVersion : String) : Bool :=
  match searchVersion pythonVersion.data with
  | some (mj, mn) => mj < 3 || (mj == 3 && mn < 9)
  | none => false

/-! ## `EnvironmentManager.create` and the registry (C3, C5, C10) -/

/-- An environment handle.  Python object identity is modelled by the
numeric `id` drawn from a fresh counter for external environments; the
internal main environment is a single fixed value per manager state. -/
inductive Env where
  | internal (name : String) (path : Option (List String))
  | external (id : Nat) (name : String) (path : List String)

/-- Is the handle an `ExternalEnvironment`? -/
def isExternal : Env → Bool
  | .external .. => true
  | .internal .. => false

/-- `EnvironmentManager._addDebugpyInDependencies` looks for
`re.search(r"debugpy(?==|$)", dep)`: an occurrence of `debugpy` followed by
`=` or the end of the string. -/
def debugpyAt (cs : List Char) : Bool :=
  pyStarts cs ("debugpy".data) &&
    (match cs.drop 7 with
     | [] => true
     | '=' :: _ => true
     | _ => false)

/-- Scan all start positions for `debugpyAt` (`re.search`). -/
def hasDebugpySearch : List Char → Bool
  | [] => false
  | c :: rest => debugpyAt (c :: rest) || hasDebugpySearch rest

/-- Does one dependency entry already mention debugpy
(regex on a string entry, exact name on a structured entry)? -/
def depMentionsDebugpy : DepEntry → Bool
  | .str s => hasDebugpySearch s.data
  | .structured d => d.name == "debugpy"

/-- `EnvironmentManager._addDebugpyInDependencies`: in debug mode, append the
conda entry `"debugpy"` unless some pip or conda entry already mentions it. -/
def addDebugpyInDependencies (debug : Bool) (deps : Dependencies) : Dependencies :=
  if !debug then deps
  else if deps.pip.any depMentionsDebugpy || deps.conda.any depMentionsDebugpy then deps
  else { deps with conda := deps.conda ++ [DepEntry.str ("debugpy")] }

/-- Settings consumed by the dependency-installation command builder
(`condaBin`, platform, proxy map). -/
structure DepSettings where
  condaBin : String
  isWindows : Bool
  proxies : Option (List (String × String))

/-- Proxy environment-variable commands
(`export {name}_proxy="{value}"`, or the `$Env:` form on Windows). -/
def getProxyEnvironmentVariablesCommands (s : DepSettings) : List String :=
  match s.proxies with
  | none => []
  | some ps =>
    ps.map (fun nv =>
      if s.isWindows then "$Env:" ++ nv.1.toLower ++ "_proxy=\"" ++ nv.2 ++ "\""
      else "export " ++ nv.1.toLower ++ "_proxy=\"" ++ nv.2 ++ "\"")

/-- `proxies.get("https", proxies.get("http", None))`. -/
def getProxyString (s : DepSettings) : Option String :=
  match s.proxies with
  | none => none
  | some ps =>
    match lookupA ps "https" with
    | some v => some v
    | none => lookupA ps "http"

/-- `DependencyManager.getInstallDependenciesCommands`
(`cema/dependency_manager.py`): format both entry lists with checks enabled,
refuse pip specs containing `::`, then emit the grouped activate/install
commands. -/
def getInstallDependenciesCommands (s : DepSettings) (cp : String)
    (envName : String) (deps : Dependencies) : Except WetErr (List String) := do
  let (condaD, condaND, hasConda) ← formatDependencies cp true true deps.conda
  let (pipD, pipND, hasPip) ← formatDependencies cp true true deps.pip
  if (pipD ++ pipND).any (fun d => containsSub ("::".data) d.data) then
    .error .pipChannel
  else
    let proxyArgs := match getProxyString s with
      | some p => "--proxy " ++ p
      | none => ""
    let cmds := getProxyEnvironmentVariablesCommands s
    let cmds := cmds ++
      (if hasConda || hasPip then
        ["echo \"Activating environment " ++ envName ++ "...\"",
         s.condaBin ++ " activate " ++ envName]
      else [])
    let cmds := cmds ++
      (if 0 < condaD.length then
        ["echo \"Installing conda dependencies...\"",
         s.condaBin ++ " install " ++ String.intercalate (" ") condaD ++ " -y"]
      else [])
    let cmds := cmds ++
      (if 0 < condaND.length then
        ["echo \"Installing conda dependencies without their dependencies...\"",
         s.condaBin ++ " install --no-deps " ++ String.intercalate (" ") condaND ++ " -y"]
      else [])
    let cmds := cmds ++
      (if 0 < pipD.length then
        ["echo \"Installing pip dependencies...\"",
         "pip install " ++ proxyArgs ++ " " ++ String.intercalate (" ") pipD]
      else [])
    let cmds := cmds ++
      (if 0 < pipND.length then
        ["echo \"Installing pip dependencies without their dependencies...\"",
         "pip install " ++ proxyArgs ++ " --no-dependencies " ++
           String.intercalate (" ") pipND]
      else [])
    .ok cmds

/-- `CommandGenerator.getCommandsForCurrentPlatform`: merge the `all` entries
and the current-platform entries of a platform-keyed command map (the
list-form `Commands` union member is the map `{"all": commands}`). -/
def getCommandsForCurrentPlatform (platformName : String)
    (additional : List (String × List String)) : List String :=
  ((lookupA additional "all").getD []) ++ ((lookupA additional platformName).getD [])

/-- The manager state: the registry and the host facts `create` consults,
plus the bookkeeping needed to model object identity (`nextId`), worker
liveness (`launchedIds`) and the filesystem (`files`/`dirs`, paths as
segment lists).  `activateCondaCmds` abstracts the output of
`CommandGenerator.getActivateCondaCommands()` (backend download and shell
hooks; its content is irrelevant to every claim), and `condaBinConfig` the
`SettingsManager.condaBinConfig` string. -/
structure MState where
  environments : List (String × Env)
  mainEnv : Env
  debug : Bool
  usePixi : Bool
  isWindows : Bool
  platformName : String
  platformPythonVersion : String
  condaPath : List String
  condaBin : String
  condaBinConfig : String
  proxies : Option (List (String × String))
  activateCondaCmds : List String
  host : HostState
  files : List (List String)
  dirs : List (List String)
  launchedIds : List Nat
  nextId : Nat

/-- Registry lookup (`self.environments[name]` / `name in self.environments`). -/
def lookupEnv (st : MState) (name : String) : Option Env :=
  lookupA st.environments name

/-- The `DepSettings` view of a manager state. -/
def depSettings (st : MState) : DepSettings :=
  ⟨st.condaBin, st.isWindows, st.proxies⟩

/-- Modelled from the spec: `SettingsManager.getEnvironmentPathFromName`
(`wetlands/_internal/settings_manager.py` is not under `src/`).  Spec §4.1:
Micromamba resolves a name to `<root>/envs/<name>`; Pixi to
`<root>/envs/<name>/pixi.toml`. -/
def getEnvironmentPathFromName (st : MState) (name : String) : List String :=
  if st.usePixi then st.condaPath ++ ["envs", name, "pixi.toml"]
  else st.condaPath ++ ["envs", name]

/-- Segment-wise path join for display inside command strings. -/
def joinPath (p : List String) : String := String.intercalate ("/") p

/-- `EnvironmentManager.environmentExists`: Pixi — the manifest file exists
and `<parent>/.pixi/envs/default/conda-meta` is a directory; Micromamba —
`<path>/conda-meta` is a directory. -/
def environmentExists (st : MState) (p : List String) : Bool :=
  if st.usePixi then
    st.files.contains p &&
      st.dirs.contains (p.dropLast ++ [".pixi", "envs", "default", "conda-meta"])
  else
    st.dirs.contains (p ++ ["conda-meta"])

/-- Outcome of `CommandExecutor.executeCommandsAndGetOutput` for the one
shell invocation `create` performs — an input to the embedded `create`,
since the subprocess is outside the model. -/
inductive ExecOutcome where
  | ok (lines : List String)
  | failed (message : String)

/-- Result of `create`: the updated manager state, the returned environment
or raised exception, and the command list passed to the executor (empty when
no shell execution happened). -/
structure CreateResult where
  state : MState
  result : Except WetErr Env
  executedCommands : List String

/-- `EnvironmentManager.create` (`wetlands/environment_manager.py:352-393`).
An existing registry entry is returned as is; `None` dependencies become
`{}`; debug mode may inject debugpy; if the main environment already
satisfies the dependencies (and `forceExternal` is false) the main
environment is returned; the Python version guard runs next; then the
environment-creation commands are assembled, a fresh `ExternalEnvironment`
is registered, the install commands are appended (this is where
`IncompatibilityException` can be raised — after registration), the
additional platform commands are appended, and the whole list is executed;
finally `self.environments[name]` is returned. -/
def create (st : MState) (name : String) (dependencies : Option Dependencies)
    (additionalInstallCommands : List (String × List String)) (forceExternal : Bool)
    (execOutcome : ExecOutcome) : CreateResult :=
  match lookupEnv st name with
  | some e => ⟨st, .ok e, []⟩
  | none =>
    let deps := addDebugpyInDependencies st.debug (dependencies.getD emptyDeps)
    match dependenciesAreInstalled st.host deps with
    | .error e => ⟨st, .error e, []⟩
    | .ok installed =>
      if !forceExternal && installed then ⟨st, .ok st.mainEnv, []⟩
      else
        let pythonVersion := removeEqChars (deps.python.getD "")
        if pythonVersionCheckFails pythonVersion then
          ⟨st, .error (.pythonVersion ("Python version must be greater than 3.8")), []⟩
        else
          let pythonRequirement := " python=" ++
            (if 0 < pythonVersion.length then pythonVersion
             else st.platformPythonVersion)
          let path := getEnvironmentPathFromName st name
          let createEnvCommands := st.activateCondaCmds ++
            (if st.usePixi then
              (if !(st.files.contains path) then
                [st.condaBin ++ " init --no-progress " ++
                  (if st.isWindows then "--platform win-64" else "") ++
                  " \"" ++ joinPath path.dropLast ++ "\""]
              else []) ++
              [st.condaBin ++ " add --no-progress --manifest-path \"" ++
                joinPath path ++ "\" " ++ pythonRequirement]
            else
              [st.condaBinConfig ++ " create -n " ++ name ++ pythonRequirement ++ " -y"])
          let environment := Env.external st.nextId name path
          let st1 := { st with
            environments := (name, environment) :: st.environments,
            nextId := st.nextId + 1 }
          match getInstallDependenciesCommands (depSettings st) st.host.currentPlatform
              name deps with
          | .error e => ⟨st1, .error e, []⟩
          | .ok installCmds =>
            let allCmds := createEnvCommands ++ installCmds ++
              getCommandsForCurrentPlatform st.platformName additionalInstallCommands
            match execOutcome with
            | .failed m => ⟨st1, .error (.commandFailed m), allCmds⟩
            | .ok _ => ⟨st1, .ok environment, allCmds⟩

/-! ## C7: `ExternalEnvironment.delete` and `ExternalEnvironment.update` -/

/-- Is `p` a segment-prefix of `q` (is `q` inside the tree rooted at `p`)? -/
def segPrefix : List String → List String → Bool
  | [], _ => true
  | _ :: _, [] => false
  | a :: as, b :: bs => a == b && segPrefix as bs

/-- `send2trash(p)`: the directory tree rooted at `p` leaves the filesystem. -/
def trashPath (st : MState) (p : List String) : MState :=
  { st with
    files := st.files.filter (fun q => !(segPrefix p q)),
    dirs := st.dirs.filter (fun q => !(segPrefix p q)) }

/-- `ExternalEnvironment.delete` for the handle `external id name path`
(the embedded handles always carry a path, so the `self.path is None` branch
cannot arise): raise if the on-disk environment does not exist; `_exit()` the
worker if launched; `send2trash` the workspace parent (Pixi) or the
environment directory (Micromamba); remove the name from the registry. -/
def externalDelete (st : MState) (id : Nat) (name : String) (path : List String) :
    MState × Except WetErr Unit :=
  if !(environmentExists st path) then
    (st, .error (.notFound ("The environment " ++ name ++ " does not exist.")))
  else
    let st1 :=
      if st.launchedIds.contains id then
        { st with launchedIds := st.launchedIds.filter (fun i => !(i == id)) }
      else st
    let st2 := trashPath st1 (if st1.usePixi then path.dropLast else path)
    let st3 := { st2 with
      environments := st2.environments.filter (fun pr => !(pr.1 == name)) }
    (st3, .ok ())

/-- The parameter names of `EnvironmentManager.create`
(`def create(self, name, dependencies, additionalInstallCommands,
forceExternal)`). -/
def createParams : List String :=
  ["name", "dependencies", "additionalInstallCommands", "forceExternal"]

/-- The keyword arguments `ExternalEnvironment.update` passes to
`self.environmentManager.create(str(self.name), dependencies=…,
additionalInstallCommands=…, useExisting=…)`. -/
def updateCreateCallKeywords : List String :=
  ["dependencies", "additionalInstallCommands", "useExisting"]

/-- `ExternalEnvironment.update` for the handle `external id name path`:
raise if the environment does not exist; delete it; then call `create` under
the same name.  Python function-call semantics raise `TypeError` before
entering the callee when a keyword argument is not among the callee's
parameters, which is checked here against the source signatures. -/
def externalUpdate (st : MState) (id : Nat) (name : String) (path : List String)
    (dependencies : Option Dependencies)
    (additionalInstallCommands : List (String × List String))
    (execOutcome : ExecOutcome) : MState × Except WetErr Env :=
  if !(environmentExists st path) then
    (st, .error (.notFound ("The environment " ++ name ++ " does not exist.")))
  else
    match externalDelete st id name path with
    | (st1, .error e) => (st1, .error e)
    | (st1, .ok ()) =>
      if updateCreateCallKeywords.all (fun k => createParams.contains k) then
        let r := create st1 name dependencies additionalInstallCommands false
          execOutcome
        (r.state, r.result)
      else
        (st1, .error (.typeError
          ("create() got an unexpected keyword argument: useExisting")))

/-! ## C8: `CommandExecutor.getOutput` (`cema/command_executor.py`) -/

/-- The characters of the fatal marker substring. -/
def cseChars : List Char := "CondaSystemExit".data

/-- Python `str(list_of_strings)` — the repr `['a', 'b']` — for command
strings without quotes or backslashes (repr escaping never fires on the
generated commands this is applied to). -/
def pyReprStrList (l : List String) : String :=
  "[" ++ String.intercalate (", ") (l.map (fun s => "\x27" ++ s ++ "\x27")) ++ "]"

/-- Python `s[-150:]`: the last 150 characters (the whole string when it is
shorter). -/
def pyTail150 (s : String) : String := ⟨s.data.drop (s.data.length - 150)⟩

/-- The abbreviated command text used in failure messages:
`("[...] " if len(str(commands)) > 150 else "") + str(commands)[-150:]`
when the command list is non-empty, else the empty string. -/
def commandStringOf (commands : List String) : String :=
  if 0 < commands.length then
    (if 150 < (pyReprStrList commands).data.length then "[...] " else "") ++
      pyTail150 (pyReprStrList commands)
  else ""

/-- `f'The execution of the commands "{commandString}" failed.'` -/
def failMessage (cs : String) : String :=
  "The execution of the commands \"" ++ cs ++ "\" failed."

/-- A raised command failure, recording whether `process.kill()` was called
before raising. -/
structure CmdFailure where
  message : String
  processKilled : Bool

/-- The streaming loop of `getOutput`: each line is stripped (when `strip`),
a line containing `CondaSystemExit` kills the process and raises; after the
stream closes, `process.wait()` is followed by a raise iff the return code
is non-zero, else the collected lines are returned. -/
def getOutputLoop (strip : Bool) (msg : String) (returncode : Int) :
    List String → Except CmdFailure (List String)
  | [] => if returncode == 0 then .ok [] else .error ⟨msg, false⟩
  | l :: ls =>
    let line := if strip then pyStrip l else l
    if containsSub cseChars line.data then .error ⟨msg, true⟩
    else
      match getOutputLoop strip msg returncode ls with
      | .error e => .error e
      | .ok rest => .ok (line :: rest)

/-- `CommandExecutor.getOutput` over the subprocess's output lines and exit
code (`log` only writes to the logger and is omitted). -/
def getOutput (lines : List String) (returncode : Int) (commands : List String)
    (strip : Bool) : Except CmdFailure (List String) :=
  getOutputLoop strip (failMessage (commandStringOf commands)) returncode lines

/-! ## Claim-side emission descriptions for `formatDependencies` (C4, C9) -/

/-- Entries on which the `formatDependencies` loop raises
`IncompatibilityException`. -/
def entryRaises (cp : String) (raiseError : Bool) : DepEntry → Bool
  | .str _ => false
  | .structured d => !(depIncluded cp raiseError d) && !d.optional

/-- The (unquoted) spec an entry contributes to the with-deps list, if any. -/
def emitWith (cp : String) (raiseError : Bool) : DepEntry → Option String
  | .str s => some s
  | .structured d =>
    if depIncluded cp raiseError d then
      match d.dependencies with
      | some false => none
      | _ => some d.name
    else none

/-- The (unquoted) spec an entry contributes to the no-deps list, if any. -/
def emitNo (cp : String) (raiseError : Bool) : DepEntry → Option String
  | .str _ => none
  | .structured d =>
    if depIncluded cp raiseError d then
      match d.dependencies with
      | some false => some d.name
      | _ => none
    else none

/-- The claim's raise condition, stated from its words: a structured entry
whose platform list is non-empty, is not the wildcard `all`, does not
contain the current platform tag, and which is not optional. -/
def claimRaiseCondition (cp : String) : DepEntry → Bool
  | .str _ => false
  | .structured d =>
    match d.platforms with
    | .allPlatforms => false
    | .tags ps => !ps.isEmpty && !ps.contains cp && !d.optional

/-- The specs an entry list contributes (with-deps then no-deps, the order
`_dependenciesAreInstalled` checks them in), with platform checks disabled. -/
def uncheckedSpecs (cp : String) (entries : List DepEntry) : List String :=
  entries.filterMap (emitWith cp false) ++ entries.filterMap (emitNo cp false)

/-- Closed form of `dependenciesAreInstalled` (proved equivalent below):
the same computation with the `formatDependencies` call resolved, since with
checks disabled every entry is emitted and nothing can be raised. -/
def depsInstalledB (st : HostState) (deps : Dependencies) : Bool :=
  if !(pyStartsS st.sysVersion (removeEqChars (deps.python.getD ""))) then false
  else
    let condaL := uncheckedSpecs st.currentPlatform deps.conda
    let pipL := uncheckedSpecs st.currentPlatform deps.pip
    if pipL.isEmpty && condaL.isEmpty then true
    else if !condaL.isEmpty && st.mainPath.isNone then false
    else
      let installed := if st.mainPath.isSome then st.envPackages
        else if !pipL.isEmpty then st.hostDistributions else []
      condaL.all (fun d => checkRequirement d .conda installed) &&
        pipL.all (fun d => checkRequirement d .pip installed)

/-! ## Concrete states for the closed examples -/

/-- A concrete manager state: Linux host, Micromamba backend, empty registry,
main environment without a path, no proxies, debug off. -/
def exState : MState where
  environments := []
  mainEnv := Env.internal ("wetlands_main") none
  debug := false
  usePixi := false
  isWindows := false
  platformName := "linux"
  platformPythonVersion := "3.12.7"
  condaPath := ["root", "micromamba"]
  condaBin := "micromamba"
  condaBinConfig := "micromamba --rc-file root/.mambarc"
  proxies := none
  activateCondaCmds := []
  host := ⟨"3.12.7 (main)", "linux-64", none, [], []⟩
  files := []
  dirs := []
  launchedIds := []
  nextId := 0

/-- `exState` with the Micromamba environment `e` on disk and registered. -/
def exStateWithEnv : MState :=
  { exState with
    environments := [("e", Env.external 0 "e" ["root", "micromamba", "envs", "e"])],
    dirs := [["root", "micromamba", "envs", "e", "conda-meta"]],
    nextId := 1 }

/-! # Theorems -/

/-! ## String-scanning facts -/

theorem pyStarts_iff (s p : List Char) : pyStarts s p = true ↔ p <+: s := by
  induction s generalizing p with
  | nil => cases p <;> simp [pyStarts]
  | cons c cs ih =>
    cases p with
    | nil => simp [pyStarts]
    | cons d ds =>
      simp only [pyStarts, Bool.and_eq_true, beq_iff_eq, ih, List.cons_prefix_cons]
      exact and_congr_left (fun _ => eq_comm)

theorem containsSub_iff (n h : List Char) : containsSub n h = true ↔ n <:+: h := by
  induction h with
  | nil =>
    simp only [containsSub, List.isEmpty_iff, List.infix_nil]
  | cons c cs ih =>
    simp only [containsSub, Bool.or_eq_true, pyStarts_iff, ih, List.infix_cons_iff]

theorem infix_dropWhile_iff (p : Char → Bool) (n : List Char)
    (hn : ∀ c ∈ n, p c = false) (l : List Char) :
    n <:+: l.dropWhile p ↔ n <:+: l := by
  induction l with
  | nil => simp
  | cons c cs ih =>
    rw [List.dropWhile_cons]
    by_cases hc : p c = true
    · rw [if_pos hc, ih, List.infix_cons_iff]
      constructor
      · exact Or.inr
      · rintro (hpre | hinf)
        · cases n with
          | nil => exact List.nil_infix
          | cons a as =>
            rw [List.cons_prefix_cons] at hpre
            have := hn a (List.mem_cons_self a as)
            rw [hpre.1, hc] at this
            exact absurd this (by simp)
        · exact hinf
    · rw [if_neg hc]

theorem containsSub_stripChars (n : List Char) (hn : ∀ c ∈ n, isPySpace c = false)
    (l : List Char) : containsSub n (stripChars l) = containsSub n l := by
  rw [Bool.eq_iff_iff, containsSub_iff, containsSub_iff, stripChars]
  have hrev : ∀ c ∈ n.reverse, isPySpace c = false := by
    intro c hc
    exact hn c (List.mem_reverse.mp hc)
  calc n <:+: ((l.dropWhile isPySpace).reverse.dropWhile isPySpace).reverse
      ↔ n.reverse <:+: (l.dropWhile isPySpace).reverse.dropWhile isPySpace := by
        conv_lhs => rw [← List.reverse_reverse n]
        exact List.reverse_infix
    _ ↔ n.reverse <:+: (l.dropWhile isPySpace).reverse :=
        infix_dropWhile_iff isPySpace n.reverse hrev _
    _ ↔ n <:+: l.dropWhile isPySpace := List.reverse_infix
    _ ↔ n <:+: l := infix_dropWhile_iff isPySpace n hn l

theorem containsSub_cse_strip (l : String) :
    containsSub cseChars (pyStrip l).data = containsSub cseChars l.data :=
  containsSub_stripChars cseChars (by decide) l.data

/-! ## C8: `CommandExecutor.getOutput` -/

theorem getOutputLoop_spec (strip : Bool) (msg : String) (rc : Int) (ls : List String) :
    ((∃ e, getOutputLoop strip msg rc ls = .error e) ↔
      (¬(rc = 0) ∨ ls.any (fun l => containsSub cseChars l.data) = true)) ∧
    (∀ e, getOutputLoop strip msg rc ls = .error e →
      e.message = msg ∧
        (e.processKilled = true ↔ ls.any (fun l => containsSub cseChars l.data) = true)) := by
  induction ls with
  | nil =>
    constructor
    · simp only [getOutputLoop, List.any_nil, or_false]
      constructor
      · rintro ⟨e, he⟩
        left
        intro h0
        rw [if_pos (by simpa using h0)] at he
        exact Except.noConfusion he
      · intro h0
        rw [if_neg (by simpa using h0)]
        exact ⟨_, rfl⟩
    · intro e he
      simp only [getOutputLoop] at he
      by_cases h0 : rc == 0
      · rw [if_pos h0] at he
        exact Except.noConfusion he
      · rw [if_neg h0] at he
        cases he
        simp
  | cons l ls ih =>
    have hline : containsSub cseChars (if strip then pyStrip l else l).data =
        containsSub cseChars l.data := by
      cases strip with
      | true => simp only [if_true, containsSub_cse_strip]
      | false => simp only [if_false, Bool.false_eq_true]
    by_cases hcse : containsSub cseChars l.data = true
    · have hbranch : containsSub cseChars (if strip then pyStrip l else l).data = true := by
        rw [hline, hcse]
      constructor
      · simp only [getOutputLoop, hbranch, if_true, List.any_cons, hcse, Bool.true_or,
          or_true, iff_true]
        exact ⟨_, rfl⟩
      · intro e he
        simp only [getOutputLoop, hbranch, if_true] at he
        cases he
        simp [hcse]
    · have hbranch : containsSub cseChars (if strip then pyStrip l else l).data = false := by
        rw [hline]
        simpa using hcse
      have hrec : getOutputLoop strip msg rc (l :: ls) =
          (match getOutputLoop strip msg rc ls with
           | .error e => .error e
           | .ok rest => .ok ((if strip then pyStrip l else l) :: rest)) := by
        simp only [getOutputLoop, hbranch, Bool.false_eq_true, if_false]
      constructor
      · rw [hrec]
        simp only [List.any_cons, hcse, Bool.false_or]
        constructor
        · rintro ⟨e, he⟩
          apply ih.1.mp
          refine ⟨e, ?_⟩
          cases hls : getOutputLoop strip msg rc ls with
          | error e2 => rw [hls] at he; cases he; rfl
          | ok r => rw [hls] at he; exact Except.noConfusion he
        · intro h
          obtain ⟨e, he⟩ := ih.1.mpr h
          exact ⟨e, by rw [he]⟩
      · intro e he
        rw [hrec] at he
        cases hls : getOutputLoop strip msg rc ls with
        | error e2 =>
          rw [hls] at he
          cases he
          have := ih.2 e hls
          simpa [hcse] using this
        | ok r =>
          rw [hls] at he
          exact Except.noConfusion he

/-- C8.  Streaming a spawned script to completion raises exactly when the
exit code is non-zero or some output line contains `CondaSystemExit`; the
process is killed before raising exactly in the `CondaSystemExit` case; the
failure message carries the abbreviated command text, which for a non-empty
command list is the last 150 characters of the list's string form, prefixed
with `"[...] "` when that string form exceeds 150 characters — and that tail
is indeed a suffix of at most 150 characters. -/
theorem C8_getOutput_failure_policy (lines : List String) (returncode : Int)
    (commands : List String) (strip : Bool) :
    ((∃ e, getOutput lines returncode commands strip = .error e) ↔
      (¬(returncode = 0) ∨ lines.any (fun l => containsSub cseChars l.data) = true)) ∧
    (∀ e, getOutput lines returncode commands strip = .error e →
      (e.processKilled = true ↔
        lines.any (fun l => containsSub cseChars l.data) = true)) ∧
    (∀ e, getOutput lines returncode commands strip = .error e →
      e.message = failMessage (commandStringOf commands)) ∧
    (0 < commands.length →
      commandStringOf commands =
        (if 150 < (pyReprStrList commands).data.length then "[...] " else "") ++
          pyTail150 (pyReprStrList commands)) ∧
    (pyTail150 (pyReprStrList commands)).data.length ≤ 150 ∧
    (pyTail150 (pyReprStrList commands)).data <:+ (pyReprStrList commands).data := by
  have h := getOutputLoop_spec strip (failMessage (commandStringOf commands))
    returncode lines
  refine ⟨h.1, ?_, ?_, ?_, ?_, ?_⟩
  · intro e he
    exact (h.2 e he).2
  · intro e he
    exact (h.2 e he).1
  · intro hpos
    rw [commandStringOf, if_pos hpos]
  · simp only [pyTail150, List.length_drop]
    omega
  · exact List.drop_suffix _ _

/-- Witness for C8: a concrete stream containing the fatal marker, applied
through the theorem. -/
theorem C8_getOutput_failure_policy_witness :
    ∃ e, getOutput ["ok line", "error CondaSystemExit: exiting"] 0
      ["conda install numpy"] true = .error e :=
  (C8_getOutput_failure_policy ["ok line", "error CondaSystemExit: exiting"] 0
    ["conda install numpy"] true).1.mpr (Or.inr (by decide))

/-! ## C6: `EnvironmentManager._checkRequirement` -/

/-- C6 (the code at the repository's own test inputs).  `_checkRequirement`
does not implement the specifier algebra: with `numpy 1.20.0` installed it
rejects `numpy>=1.20.0` (its own test
`test_check_requirement_greater_than_or_equal` expects acceptance) and with
`package 2.28.5` installed it rejects `package~=2.28`
(`test_check_requirement_compatible_release` expects acceptance); only the
`==`-prefix form and the bare-name form succeed, and the conda channel
prefix is stripped. -/
theorem C6_checkRequirement_version_algebra :
    checkRequirement ("numpy>=1.20.0") PkgManager.pip
      [⟨"numpy", "1.20.0", "pypi"⟩] = false ∧
    checkRequirement ("numpy<1.21.0") PkgManager.pip
      [⟨"numpy", "1.20.0", "pypi"⟩] = false ∧
    checkRequirement ("package~=2.28") PkgManager.pip
      [⟨"package", "2.28.5", "pypi"⟩] = false ∧
    checkRequirement ("numpy") PkgManager.pip
      [⟨"numpy", "1.20.0", "pypi"⟩] = true ∧
    checkRequirement ("numpy==1.20.0") PkgManager.pip
      [⟨"numpy", "1.20.0", "pypi"⟩] = true ∧
    checkRequirement ("conda-forge::zlib==1.2.13") PkgManager.conda
      [⟨"zlib", "1.2.13", "conda"⟩] = true := by
  decide

/-! ## Characterization of `formatDependencies` -/

theorem pyStarts_nil (s : List Char) : pyStarts s [] = true := by
  cases s <;> rfl

theorem depIncluded_false (cp : String) (d : StructuredDep) :
    depIncluded cp false d = true := by
  cases hp : d.platforms <;> simp [depIncluded, hp]

theorem entryRaises_false (cp : String) (e : DepEntry) :
    entryRaises cp false e = false := by
  cases e with
  | str s => rfl
  | structured d => simp [entryRaises, depIncluded_false]

theorem collectDeps_ok (cp : String) (r : Bool) (entries : List DepEntry)
    (h : entries.all (fun e => !(entryRaises cp r e)) = true) :
    collectDeps cp r entries =
      .ok (entries.filterMap (emitWith cp r), entries.filterMap (emitNo cp r)) := by
  induction entries with
  | nil => rfl
  | cons e rest ih =>
    rw [List.all_cons, Bool.and_eq_true] at h
    obtain ⟨he, hrest⟩ := h
    have ihr := ih hrest
    cases e with
    | str s =>
      simp only [collectDeps, ihr, List.filterMap_cons, emitWith, emitNo, bind,
        Except.bind]
    | structured d =>
      by_cases hinc : depIncluded cp r d = true
      · cases hdep : d.dependencies with
        | none =>
          simp only [collectDeps, hinc, if_true, hdep, ihr, List.filterMap_cons,
            emitWith, emitNo, bind, Except.bind]
        | some b =>
          cases b with
          | false =>
            simp only [collectDeps, hinc, if_true, hdep, ihr, List.filterMap_cons,
              emitWith, emitNo, bind, Except.bind]
          | true =>
            simp only [collectDeps, hinc, if_true, hdep, ihr, List.filterMap_cons,
              emitWith, emitNo, bind, Except.bind]
      · have hopt : d.optional = true := by
          simp only [entryRaises, Bool.not_eq_true'] at he
          rcases Bool.and_eq_false_iff.mp he with h1 | h1
          · exact absurd (by simpa using h1) hinc
          · simpa using h1
        simp only [collectDeps, hinc, Bool.false_eq_true, if_false, hopt,
          Bool.not_true, ihr, List.filterMap_cons, emitWith, emitNo]

theorem collectDeps_error_iff (cp : String) (r : Bool) (entries : List DepEntry) :
    (∃ e, collectDeps cp r entries = .error e) ↔
      entries.any (entryRaises cp r) = true := by
  induction entries with
  | nil =>
    simp only [collectDeps, List.any_nil, Bool.false_eq_true, iff_false]
    rintro ⟨e, he⟩
    exact Except.noConfusion he
  | cons e rest ih =>
    cases e with
    | str s =>
      simp only [List.any_cons, entryRaises, Bool.false_or]
      rw [← ih]
      constructor
      · rintro ⟨err, herr⟩
        cases hrest : collectDeps cp r rest with
        | error e2 => exact ⟨e2, rfl⟩
        | ok p =>
          simp only [collectDeps, hrest, bind, Except.bind] at herr
          exact Except.noConfusion herr
      · rintro ⟨err, herr⟩
        refine ⟨err, ?_⟩
        simp only [collectDeps, herr, bind, Except.bind]
    | structured d =>
      by_cases hinc : depIncluded cp r d = true
      · have hnr : entryRaises cp r (DepEntry.structured d) = false := by
          simp [entryRaises, hinc]
        simp only [List.any_cons, hnr, Bool.false_or]
        rw [← ih]
        constructor
        · rintro ⟨err, herr⟩
          cases hrest : collectDeps cp r rest with
          | error e2 => exact ⟨e2, rfl⟩
          | ok p =>
            cases hdep : d.dependencies with
            | none =>
              simp only [collectDeps, hinc, if_true, hdep, hrest, bind,
                Except.bind] at herr
              exact Except.noConfusion herr
            | some b =>
              cases b with
              | false =>
                simp only [collectDeps, hinc, if_true, hdep, hrest, bind,
                  Except.bind] at herr
                exact Except.noConfusion herr
              | true =>
                simp only [collectDeps, hinc, if_true, hdep, hrest, bind,
                  Except.bind] at herr
                exact Except.noConfusion herr
        · rintro ⟨err, herr⟩
          refine ⟨err, ?_⟩
          cases hdep : d.dependencies with
          | none => simp only [collectDeps, hinc, if_true, hdep, herr, bind, Except.bind]
          | some b =>
            cases b with
            | false =>
              simp only [collectDeps, hinc, if_true, hdep, herr, bind, Except.bind]
            | true =>
              simp only [collectDeps, hinc, if_true, hdep, herr, bind, Except.bind]
      · by_cases hopt : d.optional = true
        · have hnr : entryRaises cp r (DepEntry.structured d) = false := by
            simp [entryRaises, hinc, hopt]
          simp only [List.any_cons, hnr, Bool.false_or]
          rw [← ih]
          have hstep : collectDeps cp r (DepEntry.structured d :: rest) =
              collectDeps cp r rest := by
            simp only [collectDeps, hinc, Bool.false_eq_true, if_false, hopt,
              Bool.not_true]
          rw [hstep]
        · have hr : entryRaises cp r (DepEntry.structured d) = true := by
            simp only [entryRaises, Bool.and_eq_true, Bool.not_eq_true']
            exact ⟨by simpa using hinc, by simpa using hopt⟩
          simp only [List.any_cons, hr, Bool.true_or, iff_true]
          refine ⟨.incompat (incompatMessage cp d.name
            (match d.platforms with | .allPlatforms => [] | .tags ps => ps)), ?_⟩
          simp only [collectDeps, hinc, Bool.false_eq_true, if_false,
            Bool.not_eq_true', hopt, if_neg]
          rw [if_pos]
          simp [hopt]

theorem formatDependencies_ok (cp : String) (r q : Bool) (entries : List DepEntry)
    (h : entries.all (fun e => !(entryRaises cp r e)) = true) :
    formatDependencies cp r q entries =
      .ok ((entries.filterMap (emitWith cp r)).map (fun d => if q then quoteSpec d else d),
        (entries.filterMap (emitNo cp r)).map (fun d => if q then quoteSpec d else d),
        decide (0 < (entries.filterMap (emitWith cp r)).length +
          (entries.filterMap (emitNo cp r)).length)) := by
  simp only [formatDependencies, collectDeps_ok cp r entries h, bind, Except.bind]

theorem formatDependencies_error_iff (cp : String) (r q : Bool)
    (entries : List DepEntry) :
    (∃ e, formatDependencies cp r q entries = .error e) ↔
      entries.any (entryRaises cp r) = true := by
  rw [← collectDeps_error_iff cp r entries]
  constructor
  · rintro ⟨err, herr⟩
    cases hc : collectDeps cp r entries with
    | error e2 => exact ⟨e2, rfl⟩
    | ok p =>
      simp only [formatDependencies, hc, bind, Except.bind] at herr
      exact Except.noConfusion herr
  · rintro ⟨err, herr⟩
    refine ⟨err, ?_⟩
    simp only [formatDependencies, herr, bind, Except.bind]

theorem all_not_entryRaises_false (cp : String) (entries : List DepEntry) :
    entries.all (fun e => !(entryRaises cp false e)) = true := by
  rw [List.all_eq_true]
  intro e he
  simp [entryRaises_false]

theorem map_noquote (l : List String) :
    l.map (fun d => if (false : Bool) then quoteSpec d else d) = l := by
  simp

theorem decide_pos_length {α : Type} (A B : List α) :
    decide (0 < A.length + B.length) = !((A ++ B).isEmpty) := by
  cases A <;> cases B <;> simp

theorem dependenciesAreInstalled_eq (st : HostState) (deps : Dependencies) :
    dependenciesAreInstalled st deps = .ok (depsInstalledB st deps) := by
  have hc := formatDependencies_ok st.currentPlatform false false deps.conda
    (all_not_entryRaises_false _ _)
  have hp := formatDependencies_ok st.currentPlatform false false deps.pip
    (all_not_entryRaises_false _ _)
  rw [map_noquote, map_noquote] at hc hp
  by_cases hpy : pyStartsS st.sysVersion (removeEqChars (deps.python.getD "")) = true
  · simp only [dependenciesAreInstalled, depsInstalledB, hpy, Bool.not_true,
      Bool.false_eq_true, if_false, hc, hp, bind, Except.bind, uncheckedSpecs,
      decide_pos_length]
    by_cases hboth : (deps.pip.filterMap (emitWith st.currentPlatform false) ++
        deps.pip.filterMap (emitNo st.currentPlatform false)).isEmpty = true ∧
        (deps.conda.filterMap (emitWith st.currentPlatform false) ++
        deps.conda.filterMap (emitNo st.currentPlatform false)).isEmpty = true
    · simp only [hboth.1, hboth.2, Bool.not_true, Bool.not_false, Bool.and_self,
        if_true, pure, Except.pure]
    · have hcond : ((!(!(deps.pip.filterMap (emitWith st.currentPlatform false) ++
          deps.pip.filterMap (emitNo st.currentPlatform false)).isEmpty)) &&
          (!(!(deps.conda.filterMap (emitWith st.currentPlatform false) ++
          deps.conda.filterMap (emitNo st.currentPlatform false)).isEmpty))) =
          (((deps.pip.filterMap (emitWith st.currentPlatform false) ++
          deps.pip.filterMap (emitNo st.currentPlatform false)).isEmpty) &&
          ((deps.conda.filterMap (emitWith st.currentPlatform false) ++
          deps.conda.filterMap (emitNo st.currentPlatform false)).isEmpty)) := by
        simp
      have hcondf : (((deps.pip.filterMap (emitWith st.currentPlatform false) ++
          deps.pip.filterMap (emitNo st.currentPlatform false)).isEmpty) &&
          ((deps.conda.filterMap (emitWith st.currentPlatform false) ++
          deps.conda.filterMap (emitNo st.currentPlatform false)).isEmpty)) = false := by
        by_cases h1 : (deps.pip.filterMap (emitWith st.currentPlatform false) ++
            deps.pip.filterMap (emitNo st.currentPlatform false)).isEmpty = true
        · by_cases h2 : (deps.conda.filterMap (emitWith st.currentPlatform false) ++
              deps.conda.filterMap (emitNo st.currentPlatform false)).isEmpty = true
          · exact absurd ⟨h1, h2⟩ hboth
          · simp only [Bool.not_eq_true] at h2
            simp [h2]
        · simp only [Bool.not_eq_true] at h1
          simp [h1]
      simp only [hcond, hcondf, Bool.false_eq_true, if_false]
      cases hm : st.mainPath with
      | none =>
        simp only [Option.isNone_none, Option.isSome_none, Bool.and_true,
          Bool.false_eq_true, if_false, pure, Except.pure]
        rw [← apply_ite Except.ok]
      | some p =>
        simp only [Option.isNone_some, Option.isSome_some, Bool.and_false,
          Bool.false_eq_true, if_false, if_true, pure, Except.pure]
  · have hpy' : pyStartsS st.sysVersion (removeEqChars (deps.python.getD "")) = false :=
      by simpa using hpy
    simp only [dependenciesAreInstalled, depsInstalledB, hpy', Bool.not_false, if_true,
      pure, Except.pure]

theorem all_of_sublist {α : Type} {l₁ l₂ : List α} {p : α → Bool}
    (h : List.Sublist l₁ l₂) (h2 : l₂.all p = true) : l₁.all p = true := by
  rw [List.all_eq_true] at h2 ⊢
  exact fun a ha => h2 a (h.subset ha)

theorem entryRaises_true_eq_claim (cp : String) (e : DepEntry) :
    entryRaises cp true e = claimRaiseCondition cp e := by
  cases e with
  | str s => rfl
  | structured d =>
    cases hp : d.platforms with
    | allPlatforms => simp [entryRaises, claimRaiseCondition, depIncluded, hp]
    | tags ps =>
      cases hc : ps.contains cp <;> cases hie : ps.isEmpty <;>
        cases ho : d.optional <;>
        simp [entryRaises, claimRaiseCondition, depIncluded, hp, hc, hie, ho]

/-! ## C4: the platform gate of `formatDependencies` -/

/-- Counterexample for C4 as stated.  On platform `linux-64`, the structured
entry `{name: "x", platforms: ["osx-64"], optional: true, dependencies: true}`
raises nothing but is not emitted into either group, while the claim
requires every non-raising structured entry to be emitted. -/
theorem C4_counterexample_optional_skipped :
    formatDependencies ("linux-64") true true
      [DepEntry.structured ⟨"x", PlatformSpec.tags ["osx-64"], true, some true⟩] =
      .ok ([], [], false) := by
  rfl

/-- C4 (amended).  With platform checks enabled, formatting raises
`IncompatibilityException` exactly when some structured entry has a
non-empty, non-wildcard platform list that excludes the current platform and
is not optional.  When nothing raises, the emission is exactly: every simple
string into the with-deps group; every structured entry passing the platform
gate into the no-deps group when its `dependencies` field is `false` and the
with-deps group otherwise; platform-failing optional entries are skipped
(`emitWith`/`emitNo` return `none` on them); every emitted spec is quoted.
`create` with a single non-optional entry restricted to a different platform
raises `IncompatibilityException` whenever the dependency set is not already
satisfied in the main environment. -/
theorem C4_formatDependencies_amended (cp : String) (q : Bool)
    (entries : List DepEntry) :
    ((∃ e, formatDependencies cp true q entries = .error e) ↔
      entries.any (claimRaiseCondition cp) = true) ∧
    (entries.all (fun e => !(claimRaiseCondition cp e)) = true →
      formatDependencies cp true q entries =
        .ok ((entries.filterMap (emitWith cp true)).map
            (fun d => if q then quoteSpec d else d),
          (entries.filterMap (emitNo cp true)).map
            (fun d => if q then quoteSpec d else d),
          decide (0 < (entries.filterMap (emitWith cp true)).length +
            (entries.filterMap (emitNo cp true)).length))) ∧
    (∀ l1 l2 ne, formatDependencies cp true true entries = .ok (l1, l2, ne) →
      ∀ s ∈ l1 ++ l2, ∃ n, s = quoteSpec n) ∧
    (∀ (st : MState) (name nm p : String) (a : List (String × List String))
        (f : Bool) (o : ExecOutcome) (deps : Dependencies),
      st.host.currentPlatform = cp → ¬(p = cp) →
      deps = ⟨none,
        [DepEntry.structured ⟨nm, PlatformSpec.tags [p], false, some true⟩], []⟩ →
      lookupEnv st name = none → st.debug = false →
      dependenciesAreInstalled st.host deps = .ok false →
      ∃ m stOut, create st name (some deps) a f o = ⟨stOut, .error (.incompat m), []⟩) := by
  have hfun : (fun e => entryRaises cp true e) = claimRaiseCondition cp :=
    funext (entryRaises_true_eq_claim cp)
  refine ⟨?_, ?_, ?_, ?_⟩
  · rw [formatDependencies_error_iff]
    constructor
    · intro h
      rw [show entries.any (claimRaiseCondition cp) =
        entries.any (fun e => entryRaises cp true e) from by rw [hfun]]
      simpa using h
    · intro h
      rw [show entries.any (claimRaiseCondition cp) =
        entries.any (fun e => entryRaises cp true e) from by rw [hfun]] at h
      simpa using h
  · intro h
    apply formatDependencies_ok
    rw [List.all_eq_true] at h ⊢
    intro e he
    have := h e he
    simpa [entryRaises_true_eq_claim] using this
  · intro l1 l2 ne h s hs
    cases hc : collectDeps cp true entries with
    | error e2 =>
      simp only [formatDependencies, hc, bind, Except.bind] at h
      exact Except.noConfusion h
    | ok p =>
      obtain ⟨a, b⟩ := p
      simp only [formatDependencies, hc, bind, Except.bind, Except.ok.injEq,
        Prod.mk.injEq, if_true] at h
      rcases List.mem_append.mp hs with hm | hm
      · rw [← h.1] at hm
        obtain ⟨n, _, hn⟩ := List.mem_map.mp hm
        exact ⟨n, hn.symm⟩
      · rw [← h.2.1] at hm
        obtain ⟨n, _, hn⟩ := List.mem_map.mp hm
        exact ⟨n, hn.symm⟩
  · intro st name nm p a f o deps hcp hp hdeps hname hdebug hinst
    subst hdeps
    have hcpne : (cp == p) = false := by
      simp only [beq_eq_false_iff_ne, ne_eq]
      exact fun he => hp he.symm
    have hincl : depIncluded cp true ⟨nm, PlatformSpec.tags [p], false, some true⟩ = false := by
      simp [depIncluded, hcpne]
      exact fun he => hp he.symm
    have hfmt : formatDependencies cp true true
        [DepEntry.structured ⟨nm, PlatformSpec.tags [p], false, some true⟩] =
        .error (.incompat (incompatMessage cp nm [p])) := by
      simp only [formatDependencies, collectDeps, hincl, Bool.false_eq_true, if_false,
        Bool.not_false, if_true, bind, Except.bind]
    have hinstall : getInstallDependenciesCommands (depSettings st)
        st.host.currentPlatform name
        ⟨none, [DepEntry.structured ⟨nm, PlatformSpec.tags [p], false, some true⟩], []⟩ =
        .error (.incompat (incompatMessage cp nm [p])) := by
      simp only [getInstallDependenciesCommands, hcp, hfmt, bind, Except.bind]
    have hpv : pythonVersionCheckFails (removeEqChars ("")) = false := rfl
    refine ⟨incompatMessage cp nm [p],
      { st with
        environments := (name, Env.external st.nextId name
          (getEnvironmentPathFromName st name)) :: st.environments,
        nextId := st.nextId + 1 }, ?_⟩
    simp only [create, hname, Option.getD_some, addDebugpyInDependencies, hdebug,
      Bool.not_false, if_true, hinst, Bool.and_false, Bool.false_eq_true, if_false,
      Option.getD_none, hpv, hinstall]

/-! ## C9: monotonicity of the satisfaction check -/

theorem depsInstalledB_monotone (st : HostState) (d1 d2 : Dependencies)
    (hconda : List.Sublist d1.conda d2.conda) (hpip : List.Sublist d1.pip d2.pip)
    (hpy : d1.python = none ∨ d1.python = d2.python)
    (h2 : depsInstalledB st d2 = true) : depsInstalledB st d1 = true := by
  have hpy2 : pyStartsS st.sysVersion (removeEqChars (d2.python.getD "")) = true := by
    by_contra hne
    have hf : pyStartsS st.sysVersion (removeEqChars (d2.python.getD "")) = false := by
      simpa using hne
    rw [depsInstalledB, hf] at h2
    simp at h2
  have hpy1 : pyStartsS st.sysVersion (removeEqChars (d1.python.getD "")) = true := by
    rcases hpy with h | h
    · rw [h]
      show pyStarts st.sysVersion.data [] = true
      exact pyStarts_nil _
    · rw [h]
      exact hpy2
  have hsubC : List.Sublist (uncheckedSpecs st.currentPlatform d1.conda)
      (uncheckedSpecs st.currentPlatform d2.conda) :=
    List.Sublist.append (hconda.filterMap _) (hconda.filterMap _)
  have hsubP : List.Sublist (uncheckedSpecs st.currentPlatform d1.pip)
      (uncheckedSpecs st.currentPlatform d2.pip) :=
    List.Sublist.append (hpip.filterMap _) (hpip.filterMap _)
  unfold depsInstalledB at h2 ⊢
  rw [hpy1]
  rw [hpy2] at h2
  simp only [Bool.not_true, Bool.false_eq_true, if_false] at h2 ⊢
  by_cases hempty1 : (uncheckedSpecs st.currentPlatform d1.pip).isEmpty = true ∧
      (uncheckedSpecs st.currentPlatform d1.conda).isEmpty = true
  · rw [if_pos (by rw [hempty1.1, hempty1.2]; rfl)]
  · have hcond1 : ¬(((uncheckedSpecs st.currentPlatform d1.pip).isEmpty &&
        (uncheckedSpecs st.currentPlatform d1.conda).isEmpty) = true) := by
      rw [Bool.and_eq_true]
      exact hempty1
    have hcond2 : ¬(((uncheckedSpecs st.currentPlatform d2.pip).isEmpty &&
        (uncheckedSpecs st.currentPlatform d2.conda).isEmpty) = true) := by
      rw [Bool.and_eq_true]
      rintro ⟨hpe, hce⟩
      apply hempty1
      constructor
      · have hnil : uncheckedSpecs st.currentPlatform d2.pip = [] :=
          List.isEmpty_iff.mp hpe
        rw [hnil] at hsubP
        rw [List.sublist_nil.mp hsubP]
        rfl
      · have hnil : uncheckedSpecs st.currentPlatform d2.conda = [] :=
          List.isEmpty_iff.mp hce
        rw [hnil] at hsubC
        rw [List.sublist_nil.mp hsubC]
        rfl
    rw [if_neg hcond1]
    rw [if_neg hcond2] at h2
    cases hm : st.mainPath with
    | some p =>
      rw [hm] at h2
      simp only [Option.isNone_some, Option.isSome_some, Bool.and_false,
        Bool.false_eq_true, if_false, if_true] at h2 ⊢
      rw [Bool.and_eq_true] at h2 ⊢
      exact ⟨all_of_sublist hsubC h2.1, all_of_sublist hsubP h2.2⟩
    | none =>
      rw [hm] at h2
      simp only [Option.isNone_none, Option.isSome_none, Bool.and_true,
        Bool.false_eq_true, if_false] at h2 ⊢
      have hce2 : (uncheckedSpecs st.currentPlatform d2.conda).isEmpty = true := by
        by_contra hne
        rw [if_pos (by simpa using hne)] at h2
        exact Bool.noConfusion h2
      rw [if_neg (by rw [hce2]; simp)] at h2
      have hce1 : (uncheckedSpecs st.currentPlatform d1.conda).isEmpty = true := by
        have hnil : uncheckedSpecs st.currentPlatform d2.conda = [] :=
          List.isEmpty_iff.mp hce2
        rw [hnil] at hsubC
        rw [List.sublist_nil.mp hsubC]
        rfl
      rw [if_neg (by rw [hce1]; simp)]
      have hpe1 : (uncheckedSpecs st.currentPlatform d1.pip).isEmpty = false := by
        by_contra hne
        exact hempty1 ⟨by simpa using hne, hce1⟩
      have hpe2 : (uncheckedSpecs st.currentPlatform d2.pip).isEmpty = false := by
        by_contra hne
        have hpe2t : (uncheckedSpecs st.currentPlatform d2.pip).isEmpty = true := by
          simpa using hne
        have hnil : uncheckedSpecs st.currentPlatform d2.pip = [] :=
          List.isEmpty_iff.mp hpe2t
        rw [hnil] at hsubP
        rw [List.sublist_nil.mp hsubP] at hpe1
        exact Bool.noConfusion hpe1
      rw [hpe1]
      rw [hpe2] at h2
      simp only [Bool.not_false, if_true] at h2 ⊢
      rw [Bool.and_eq_true] at h2 ⊢
      refine ⟨?_, all_of_sublist hsubP h2.2⟩
      rw [List.isEmpty_iff.mp hce1]
      rfl

/-- C9.  Dependency satisfaction is monotone under inclusion: if `D₁`'s conda
and pip entry lists are sublists of `D₂`'s and `D₁`'s python constraint is
absent or equal to `D₂`'s, then whenever `_dependenciesAreInstalled` returns
`True` for `D₂` it also returns `True` for `D₁` (in the same host state). -/
theorem C9_dependenciesAreInstalled_monotone (st : HostState) (d1 d2 : Dependencies)
    (hconda : List.Sublist d1.conda d2.conda) (hpip : List.Sublist d1.pip d2.pip)
    (hpy : d1.python = none ∨ d1.python = d2.python)
    (h2 : dependenciesAreInstalled st d2 = .ok true) :
    dependenciesAreInstalled st d1 = .ok true := by
  rw [dependenciesAreInstalled_eq] at h2 ⊢
  simp only [Except.ok.injEq] at h2 ⊢
  exact depsInstalledB_monotone st d1 d2 hconda hpip hpy h2

/-- Witness for C9: `D₁ = {pip: ["numpy"]}` inside
`D₂ = {pip: ["numpy", "requests"]}`, both satisfied by the host metadata. -/
theorem C9_dependenciesAreInstalled_monotone_witness :
    dependenciesAreInstalled
      ⟨"3.12.7 (main)", "linux-64", none,
        [⟨"numpy", "1.20.0", "pypi"⟩, ⟨"requests", "2.0.0", "pypi"⟩], []⟩
      ⟨none, [], [DepEntry.str ("numpy")]⟩ = .ok true :=
  C9_dependenciesAreInstalled_monotone
    ⟨"3.12.7 (main)", "linux-64", none,
      [⟨"numpy", "1.20.0", "pypi"⟩, ⟨"requests", "2.0.0", "pypi"⟩], []⟩
    ⟨none, [], [DepEntry.str ("numpy")]⟩
    ⟨none, [], [DepEntry.str ("numpy"), DepEntry.str ("requests")]⟩
    (by decide) (by decide) (Or.inl rfl) (by rfl)

/-- Witness for C4: the amended characterization applied to a singleton list
with a raising entry. -/
theorem C4_formatDependencies_amended_witness :
    ∃ e, formatDependencies ("linux-64") true true
      [DepEntry.structured ⟨"x", PlatformSpec.tags ["osx-64"], false, some true⟩] =
      .error e :=
  (C4_formatDependencies_amended ("linux-64") true
    [DepEntry.structured ⟨"x", PlatformSpec.tags ["osx-64"], false, some true⟩]).1.mpr
    (by decide)

theorem sendAndWaitLoop_skip (pre rest : List RecvEvent)
    (h : pre.all nonTerminalFrame = true) :
    sendAndWaitLoop (pre ++ rest) = sendAndWaitLoop rest := by
  induction pre with
  | nil => rfl
  | cons e pre ih =>
    rw [List.all_cons, Bool.and_eq_true] at h
    obtain ⟨he, hpre⟩ := h
    cases e with
    | msg f =>
      simp only [nonTerminalFrame, Bool.and_eq_true, Bool.not_eq_true'] at he
      simp only [List.cons_append, sendAndWaitLoop, he.1, he.2, if_false,
        Bool.false_eq_true]
      exact ih hpre
    | falsy => simp [nonTerminalFrame] at he
    | eofError => simp [nonTerminalFrame] at he
    | brokenPipe => simp [nonTerminalFrame] at he
    | osError e => simp [nonTerminalFrame] at he

/-- C2.  For every request sent over an open worker connection, with any
number of skipped (unrecognized-tag) frames first: the first frame tagged
`execution finished` makes the call return that frame's result; a frame
tagged `error` raises `ExecutionException` with the frame's exception string
and traceback lines; unrecognized frames are skipped and the wait continues;
`EOFError`, `BrokenPipeError` and `OSError` with errno 9 during the exchange
make the call return `None` without raising, while other `OSError`s are
re-raised. -/
theorem C2_sendAndWait_protocol (pre rest : List RecvEvent)
    (hpre : pre.all nonTerminalFrame = true) :
    (∀ f : HFrame, f.action = some ("execution finished") →
      sendAndWait true (pre ++ RecvEvent.msg f :: rest) = .returned f.result) ∧
    (∀ f : HFrame, f.action = some ("error") →
      sendAndWait true (pre ++ RecvEvent.msg f :: rest) =
        .raisedExecution f.exception f.traceback) ∧
    sendAndWait true (pre ++ RecvEvent.eofError :: rest) = .returned none ∧
    sendAndWait true (pre ++ RecvEvent.brokenPipe :: rest) = .returned none ∧
    sendAndWait true (pre ++ RecvEvent.osError 9 :: rest) = .returned none ∧
    (∀ e : Int, e ≠ 9 →
      sendAndWait true (pre ++ RecvEvent.osError e :: rest) = .raisedOS e) := by
  refine ⟨?_, ?_, ?_, ?_, ?_, ?_⟩
  · intro f hf
    simp only [sendAndWait, if_true, sendAndWaitLoop_skip pre _ hpre, sendAndWaitLoop,
      hf, beq_self_eq_true, if_true]
  · intro f hf
    have : (f.action == some ("execution finished")) = false := by
      rw [hf]; decide
    simp only [sendAndWait, if_true, sendAndWaitLoop_skip pre _ hpre, sendAndWaitLoop,
      this, hf, beq_self_eq_true, if_true, Bool.false_eq_true, if_false]
    rw [if_neg (by decide)]
  · simp only [sendAndWait, if_true, sendAndWaitLoop_skip pre _ hpre, sendAndWaitLoop]
  · simp only [sendAndWait, if_true, sendAndWaitLoop_skip pre _ hpre, sendAndWaitLoop]
  · simp only [sendAndWait, if_true, sendAndWaitLoop_skip pre _ hpre, sendAndWaitLoop,
      beq_self_eq_true, if_true]
  · intro e he
    have : (e == 9) = false := by simpa using he
    simp only [sendAndWait, if_true, sendAndWaitLoop_skip pre _ hpre, sendAndWaitLoop,
      this, Bool.false_eq_true, if_false]

/-- Witness for C2: a concrete exchange with one skipped log frame followed
by the terminal frame. -/
theorem C2_sendAndWait_protocol_witness :
    sendAndWait true
      [RecvEvent.msg ⟨some ("log"), none, "", []⟩,
       RecvEvent.msg ⟨some ("execution finished"), some (Val.vint 6), "", []⟩] =
      .returned (some (Val.vint 6)) := by
  exact (C2_sendAndWait_protocol
    [RecvEvent.msg ⟨some ("log"), none, "", []⟩] [] (by decide)).1
    ⟨some ("execution finished"), some (Val.vint 6), "", []⟩ rfl

/-- C1.  For every execute request whose module imports successfully and
whose named function exists: if the function is defined in that module, the
worker calls it with both the positional args and the keyword kwargs of the
request and replies with exactly one `execution finished` frame carrying the
return value, and on any exception instead sends one `error` frame with the
exception string and traceback lines; a function that is merely re-exported
(defined elsewhere) is rejected with an error frame.  The spec's
keyword-argument scenario (`prod` with args `([1,2,3],)` and kwargs
`{"y": 2}`) returns `12`. -/
theorem C1_worker_execute (world : String → Except PyExc PyModule)
    (msg : ExecuteMsg) (m : PyModule) (f : PyFunction)
    (himp : world msg.modulePath = .ok m)
    (hfn : lookupA m.functions msg.function = some f) :
    ((f.definedIn == m.modName) = true →
      (∀ r, f.call msg.args msg.kwargs = .ok r →
        functionExecutor world msg =
          [WFrame.executionFinished r ("process execution done")]) ∧
      (∀ e, f.call msg.args msg.kwargs = .error e →
        functionExecutor world msg = [WFrame.errorFrame e.message e.tracebackLines])) ∧
    ((f.definedIn == m.modName) = false →
      functionExecutor world msg =
        [WFrame.errorFrame
          ("Module " ++ msg.modulePath ++ " has no function " ++ msg.function ++ ".")
          []]) ∧
    functionExecutor prodWorld prodMsg =
      [WFrame.executionFinished (Val.vint 12) ("process execution done")] := by
  refine ⟨?_, ?_, rfl⟩
  · intro hdef
    constructor
    · intro r hr
      simp only [functionExecutor, himp, hfn, hdef, if_true, hr]
    · intro e he
      simp only [functionExecutor, himp, hfn, hdef, if_true, he]
  · intro hdef
    simp only [functionExecutor, himp, hfn, hdef, Bool.false_eq_true, if_false]

/-- Witness for C1: the theorem applied to the concrete `prod` request. -/
theorem C1_worker_execute_witness :
    functionExecutor prodWorld prodMsg =
      [WFrame.executionFinished (Val.vint 12) ("process execution done")] :=
  ((C1_worker_execute prodWorld prodMsg prodModule prodFunction rfl rfl).1
    rfl).1 (Val.vint 12) rfl

/-! ## C3 and C10: registry behaviour of `create` -/

theorem create_of_registered (st : MState) (name : String) (d : Option Dependencies)
    (a : List (String × List String)) (f : Bool) (o : ExecOutcome) (e : Env)
    (h : lookupEnv st name = some e) :
    create st name d a f o = ⟨st, .ok e, []⟩ := by
  simp only [create, h]

theorem create_external_registers (st : MState) (name : String)
    (d : Option Dependencies) (a : List (String × List String)) (f : Bool)
    (o : ExecOutcome) (e : Env)
    (hmain : isExternal st.mainEnv = false)
    (h : (create st name d a f o).result = .ok e)
    (hx : isExternal e = true) :
    lookupEnv (create st name d a f o).state name = some e := by
  cases hl : lookupEnv st name with
  | some e0 =>
    rw [create_of_registered st name d a f o e0 hl] at h ⊢
    have h' : Except.ok e0 = Except.ok (ε := WetErr) e := h
    cases Except.ok.inj h'
    exact hl
  | none =>
    simp only [create, hl] at h ⊢
    cases hdi : dependenciesAreInstalled st.host
        (addDebugpyInDependencies st.debug (d.getD emptyDeps)) with
    | error err =>
      rw [hdi] at h
      simp only at h
      exact Except.noConfusion h
    | ok installed =>
      rw [hdi] at h
      simp only at h ⊢
      by_cases hcond : (!f && installed) = true
      · rw [if_pos hcond] at h
        have h' : Except.ok st.mainEnv = Except.ok (ε := WetErr) e := h
        cases Except.ok.inj h'
        rw [hmain] at hx
        exact Bool.noConfusion hx
      · rw [if_neg hcond] at h ⊢
        by_cases hpv : pythonVersionCheckFails
            (removeEqChars ((addDebugpyInDependencies st.debug
              (d.getD emptyDeps)).python.getD "")) = true
        · rw [if_pos hpv] at h
          exact Except.noConfusion h
        · rw [if_neg hpv] at h ⊢
          cases hic : getInstallDependenciesCommands (depSettings st)
              st.host.currentPlatform name
              (addDebugpyInDependencies st.debug (d.getD emptyDeps)) with
          | error err =>
            rw [hic] at h
            simp only at h
            exact Except.noConfusion h
          | ok cmds =>
            rw [hic] at h
            simp only at h ⊢
            cases o with
            | failed m =>
              simp only at h
              exact Except.noConfusion h
            | ok lines =>
              simp only at h ⊢
              have h' : Except.ok (Env.external st.nextId name
                  (getEnvironmentPathFromName st name)) = Except.ok (ε := WetErr) e := h
              cases Except.ok.inj h'
              simp only [lookupEnv, lookupA, beq_self_eq_true, if_true]

/-- Counterexample for C3 as stated.  From a state whose main environment
satisfies `{}`, `create("e", {})` returns the (unregistered) internal main
environment without doing any work; the immediately following
`create("e", {conda: ["numpy"]})` does not return that same instance — it
builds and returns a fresh external environment, executing creation and
installation commands. -/
theorem C3_create_idempotence_counterexample :
    (create exState "e" (some emptyDeps) [] false (.ok [])).result =
      .ok exState.mainEnv ∧
    (create exState "e" (some emptyDeps) [] false (.ok [])).state = exState ∧
    (create exState "e" (some ⟨none, [DepEntry.str ("numpy")], []⟩) [] false
      (.ok [])).result =
      .ok (Env.external 0 "e" ["root", "micromamba", "envs", "e"]) ∧
    (.ok (Env.external 0 "e" ["root", "micromamba", "envs", "e"]) :
      Except WetErr Env) ≠ .ok exState.mainEnv ∧
    (create exState "e" (some ⟨none, [DepEntry.str ("numpy")], []⟩) [] false
      (.ok [])).executedCommands ≠ [] := by
  refine ⟨rfl, rfl, rfl, ?_, ?_⟩
  · intro h
    exact Env.noConfusion (Except.ok.inj h)
  · intro h
    exact List.noConfusion h

/-- C3 (amended).  `create` is idempotent by name once the first call has
registered the environment: whenever `create(name, deps)` returns an
`ExternalEnvironment`, any following `create(name, deps')` (any dependencies,
extra commands, `forceExternal` flag or executor behaviour) returns the very
same handle, leaves the state unchanged, and executes no commands.  (When the
first call returns the internal main environment instead, the name is not
registered and the second call is evaluated afresh — the counterexample.) -/
theorem C3_create_idempotence_amended (st : MState) (name : String)
    (d d' : Option Dependencies) (a a' : List (String × List String))
    (f f' : Bool) (o o' : ExecOutcome) (e : Env)
    (hmain : isExternal st.mainEnv = false)
    (h : (create st name d a f o).result = .ok e)
    (hx : isExternal e = true) :
    create (create st name d a f o).state name d' a' f' o' =
      ⟨(create st name d a f o).state, .ok e, []⟩ :=
  create_of_registered _ name d' a' f' o' e
    (create_external_registers st name d a f o e hmain h hx)

/-- Witness for C3: the amended idempotence applied after a concrete
external creation. -/
theorem C3_create_idempotence_amended_witness :
    create (create exState "e" (some ⟨none, [DepEntry.str ("numpy")], []⟩) [] false
        (.ok [])).state "e" (some emptyDeps) [] false (.ok []) =
      ⟨(create exState "e" (some ⟨none, [DepEntry.str ("numpy")], []⟩) [] false
        (.ok [])).state,
        .ok (Env.external 0 "e" ["root", "micromamba", "envs", "e"]), []⟩ :=
  C3_create_idempotence_amended exState "e"
    (some ⟨none, [DepEntry.str ("numpy")], []⟩) (some emptyDeps) [] [] false false
    (.ok []) (.ok []) (Env.external 0 "e" ["root", "micromamba", "envs", "e"])
    rfl rfl rfl

/-! ## C5: the Python-version guard -/

/-- C5 (the guard at the repository's own boundary inputs).  The source
condition `int(group(1)) < 3 or int(group(2)) < 9` rejects `3.8.0` (as the
claim states) but also rejects `4.0`, which is at or above `3.9` in version
order (`specVersionBelow39 "4.0" = false`), contradicting the guard's own
message "Python version must be greater than 3.8"; `create` raises
accordingly in both cases. -/
theorem C5_python_version_guard :
    pythonVersionCheckFails ("3.8.0") = true ∧
    specVersionBelow39 ("3.8.0") = true ∧
    pythonVersionCheckFails ("4.0") = true ∧
    specVersionBelow39 ("4.0") = false ∧
    pythonVersionCheckFails ("3.9") = false ∧
    (create exState "e" (some ⟨some ("3.8.0"), [], []⟩) [] false (.ok [])).result =
      .error (.pythonVersion ("Python version must be greater than 3.8")) ∧
    (create exState "e" (some ⟨some ("4.0"), [], []⟩) [] false (.ok [])).result =
      .error (.pythonVersion ("Python version must be greater than 3.8")) := by
  exact ⟨by decide, by decide, by decide, by decide, by decide, rfl, rfl⟩

/-! ## C7: `ExternalEnvironment.update` -/

/-- C7 (the code at the failing input).  `update` on an existing environment
deletes it (trashes the directory, removes it from the registry) and then its
`create(..., useExisting=...)` call raises `TypeError`, because `useExisting`
is not among `create`'s parameters; no environment is recreated and the
registry no longer maps the name. -/
theorem C7_update_raises_type_error :
    (externalUpdate exStateWithEnv 0 "e" ["root", "micromamba", "envs", "e"]
      (some emptyDeps) [] (.ok [])).2 =
      .error (.typeError ("create() got an unexpected keyword argument: useExisting")) ∧
    lookupEnv (externalUpdate exStateWithEnv 0 "e" ["root", "micromamba", "envs", "e"]
      (some emptyDeps) [] (.ok [])).1 "e" = none ∧
    (externalUpdate exStateWithEnv 0 "e" ["root", "micromamba", "envs", "e"]
      (some emptyDeps) [] (.ok [])).1.dirs = [] ∧
    updateCreateCallKeywords.all (fun k => createParams.contains k) = false := by
  exact ⟨rfl, rfl, rfl, by decide⟩

/-! ## C10: non-atomicity of `create` on executor failure -/

/-- C10.  When `create` proceeds to build an external environment (the name
is unregistered, the dependencies are not satisfied by the main environment
or `forceExternal` is set, the Python guard passes and the install commands
assemble), the new `ExternalEnvironment` handle is inserted into the registry
before the shell commands run: if executing them raises, the call re-raises
yet the registry still maps the name to that handle, and a subsequent
`create` under the same name returns this very handle, running nothing. -/
theorem C10_create_registers_before_execute (st : MState) (name : String)
    (d : Option Dependencies) (a : List (String × List String)) (f : Bool)
    (m : String) (d' : Option Dependencies) (a' : List (String × List String))
    (f' : Bool) (o' : ExecOutcome) (installed : Bool) (cmds : List String)
    (hname : lookupEnv st name = none)
    (hdi : dependenciesAreInstalled st.host
      (addDebugpyInDependencies st.debug (d.getD emptyDeps)) = .ok installed)
    (hproceed : (!f && installed) = false)
    (hpv : pythonVersionCheckFails
      (removeEqChars ((addDebugpyInDependencies st.debug
        (d.getD emptyDeps)).python.getD "")) = false)
    (hic : getInstallDependenciesCommands (depSettings st) st.host.currentPlatform
      name (addDebugpyInDependencies st.debug (d.getD emptyDeps)) = .ok cmds) :
    (create st name d a f (.failed m)).result = .error (.commandFailed m) ∧
    lookupEnv (create st name d a f (.failed m)).state name =
      some (Env.external st.nextId name (getEnvironmentPathFromName st name)) ∧
    create (create st name d a f (.failed m)).state name d' a' f' o' =
      ⟨(create st name d a f (.failed m)).state,
        .ok (Env.external st.nextId name (getEnvironmentPathFromName st name)), []⟩ := by
  have hstep : create st name d a f (.failed m) =
      ⟨{ st with
          environments := (name, Env.external st.nextId name
            (getEnvironmentPathFromName st name)) :: st.environments,
          nextId := st.nextId + 1 },
        .error (.commandFailed m),
        (st.activateCondaCmds ++
          (if st.usePixi then
            (if !(st.files.contains (getEnvironmentPathFromName st name)) then
              [st.condaBin ++ " init --no-progress " ++
                (if st.isWindows then "--platform win-64" else "") ++
                " \"" ++ joinPath (getEnvironmentPathFromName st name).dropLast ++ "\""]
            else []) ++
            [st.condaBin ++ " add --no-progress --manifest-path \"" ++
              joinPath (getEnvironmentPathFromName st name) ++ "\" " ++
              (" python=" ++
                (if 0 < (removeEqChars ((addDebugpyInDependencies st.debug
                    (d.getD emptyDeps)).python.getD "")).length then
                  removeEqChars ((addDebugpyInDependencies st.debug
                    (d.getD emptyDeps)).python.getD "")
                else st.platformPythonVersion))]
          else
            [st.condaBinConfig ++ " create -n " ++ name ++
              (" python=" ++
                (if 0 < (removeEqChars ((addDebugpyInDependencies st.debug
                    (d.getD emptyDeps)).python.getD "")).length then
                  removeEqChars ((addDebugpyInDependencies st.debug
                    (d.getD emptyDeps)).python.getD "")
                else st.platformPythonVersion)) ++ " -y"])) ++ cmds ++
          getCommandsForCurrentPlatform st.platformName a⟩ := by
    simp only [create, hname, hdi, hproceed, Bool.false_eq_true, if_false, hpv, hic]
  refine ⟨?_, ?_, ?_⟩
  · rw [hstep]
  · rw [hstep]
    simp only [lookupEnv, lookupA, beq_self_eq_true, if_true]
  · apply create_of_registered
    rw [hstep]
    simp only [lookupEnv, lookupA, beq_self_eq_true, if_true]

/-- Witness for C10: a concrete failing creation from `exState`. -/
theorem C10_create_registers_before_execute_witness :
    lookupEnv (create exState "e" (some ⟨none, [DepEntry.str ("numpy")], []⟩) []
      false (.failed ("boom"))).state "e" =
      some (Env.external 0 "e" ["root", "micromamba", "envs", "e"]) :=
  (C10_create_registers_before_execute exState "e"
    (some ⟨none, [DepEntry.str ("numpy")], []⟩) [] false "boom" (some emptyDeps) []
    false (.ok []) false
    ["echo \"Activating environment e...\"", "micromamba activate e",
     "echo \"Installing conda dependencies...\"", "micromamba install \"numpy\" -y"]
    rfl rfl rfl rfl rfl).2.1

end Wetlands
